import Mathlib

/-!
Shallow embedding of `neural_maxwell/datasets/generators.py`.

Conventions:
* numpy 2-D arrays become functions `Nat -> Nat -> _` indexed `[row][col]`,
  together with the explicit shape data the source reads from `.shape`;
* exact rational arithmetic (`Rat`) stands in for float arithmetic, a pair
  `Rat x Rat` stands in for a complex float (real part, imaginary part);
* fallible code returns `Except String _` / `Option _`.

The modules `neural_maxwell.constants` and the external `angler` package are
not under `src/`; the few facts needed from them are modelled from the spec
and marked `Modelled from the spec:` below.  Everything else is translated
directly from `generators.py`.
-/

/-- Modelled from the spec: vacuum permittivity `EPSILON0` from the missing
`neural_maxwell.constants` module (SI value 8.854187817e-12). -/
def EPSILON0 : ℚ := 8854187817 / 10 ^ 21

/-- Modelled from the spec: vacuum permeability `MU0` from the missing
`neural_maxwell.constants` module (SI value 1.2566370614e-6). -/
def MU0 : ℚ := 12566370614 / 10 ^ 16

/-- Modelled from the spec: angular frequency of 1550nm light, from the missing
`neural_maxwell.constants` module; the repository comment in `generators.py`
gives `omega = 1.215e15  # 1550nm frequency`. -/
def OMEGA_1550 : ℚ := 1215 * 10 ^ 12

/-- Modelled from the spec: silicon-like relative permittivity constant
`eps_si` (refractive index squared, about 3.48^2) from the missing
`neural_maxwell.constants` module. -/
def eps_si : ℚ := 121 / 10

/-- Modelled from the spec: default device grid side `GRID_SIZE` from the
missing `neural_maxwell.constants` module (the repository comments describe a
64x64 device block). -/
def GRID_SIZE : ℕ := 64

/-- Complex scalar as (real part, imaginary part), both exact rationals. -/
abbrev Cx : Type := ℚ × ℚ

/-- Complex multiplication on `Cx`. -/
def cmul (a b : Cx) : Cx := (a.1 * b.1 - a.2 * b.2, a.1 * b.2 + a.2 * b.1)

/-- Product of two flattened-grid matrices of logical size `M x M`
(the `@` operator on the sparse matrices of the source). -/
def matmul (M : ℕ) (A B : ℕ → ℕ → Cx) : ℕ → ℕ → Cx :=
  fun i j => ∑ k ∈ Finset.range M, cmul (A i k) (B k j)

/-- Real diagonal matrix `sp.spdiags(v, 0, M, M)`: entry `(i, i)` is `v i`
for `i < M`, all other entries are zero. -/
def spdiags0 (v : ℕ → ℚ) (M : ℕ) : ℕ → ℕ → ℚ :=
  fun i j => if i = j ∧ i < M then v i else 0

/-- Row-major flattening `epsilons.reshape((-1,))` of a grid with `cols`
columns: flat index `k` reads cell `(k / cols, k % cols)`. -/
def flatten_eps (cols : ℕ) (eps : ℕ → ℕ → ℚ) : ℕ → ℚ :=
  fun k => eps (k / cols) (k % cols)

/-- Row-major reshape of a flat vector back onto a grid with `cols` columns. -/
def unflatten (cols : ℕ) (v : ℕ → ℚ) : ℕ → ℕ → ℚ :=
  fun i j => v (i * cols + j)

/-- Configuration data read by the `angler.Simulation` constructor, apart from
the permittivity array itself: the array shape, PML cell count, polarization
mode, angular frequency, grid spacing and length scale. -/
structure Sim2DConfig where
  rows : ℕ
  cols : ℕ
  npml : ℕ
  mode : String
  omega : ℚ
  dl : ℚ
  L0 : ℚ

/-- The four derivative operators `Dyb, Dxb, Dxf, Dyf` returned by
`angler.derivatives.unpack_derivs(sim.derivs)`. -/
structure DerivOps where
  Dyb : ℕ → ℕ → Cx
  Dxb : ℕ → ℕ → Cx
  Dxf : ℕ → ℕ → Cx
  Dyf : ℕ → ℕ → Cx

/-!
Modelled from the spec: the construction of the derivative operators lives in
the external `angler` package, which is not under `src/`.  Per the spec's
OperatorAssembler contract they are built from the total grid shape, grid
spacing `dl`, length scale `L0`, polarization mode, PML thickness and angular
frequency `omega` — exactly the fields of `Sim2DConfig`, and not from the
permittivity values.  The construction itself is therefore abstracted as a
parameter `derivs : Sim2DConfig → DerivOps` threaded through the embeddings
of `get_A_ops_2d` and `Cavity2D.get_operators`.
-/

/-- Embedding of `get_A_ops_2d(epsilons, npml, omega, dl, L0)`:
builds `curl_curl = Dxf@Dxb + Dyf@Dyb` from the simulation derivative
operators, and `other = omega^2 * MU0 * L0 * T_eps_z` where `T_eps_z` is the
diagonal matrix of `EPSILON0 * L0 * epsilons.reshape((-1,))`.
`rows`/`cols` carry `epsilons.shape`. -/
def get_A_ops_2d (derivs : Sim2DConfig → DerivOps) (rows cols : ℕ)
    (epsilons : ℕ → ℕ → ℚ) (npml : ℕ) (omega dl L0 : ℚ) :
    (ℕ → ℕ → Cx) × (ℕ → ℕ → ℚ) :=
  let cfg : Sim2DConfig := ⟨rows, cols, npml, "Ez", omega, dl, L0⟩
  let d := derivs cfg
  let M := rows * cols
  let vector_eps_z : ℕ → ℚ := fun k => EPSILON0 * L0 * flatten_eps cols epsilons k
  let T_eps_z := spdiags0 vector_eps_z M
  let curl_curl : ℕ → ℕ → Cx :=
    fun i j => matmul M d.Dxf d.Dxb i j + matmul M d.Dyf d.Dyb i j
  let other : ℕ → ℕ → ℚ := fun i j => omega ^ 2 * MU0 * L0 * T_eps_z i j
  (curl_curl, other)

/-- Configuration fields of the `Cavity2D` class. -/
structure Cavity2D where
  mode : String
  device_length : ℕ
  npml : ℕ
  cavity_buffer : ℕ
  buffer_permittivity : ℚ
  dl : ℚ
  L0 : ℚ

/-- The local `total_length = device_length + 2*cavity_buffer + 2*npml`
computed in `Cavity2D.solve` and `Cavity2D.get_operators`. -/
def Cavity2D.total_length (c : Cavity2D) : ℕ :=
  c.device_length + 2 * c.cavity_buffer + 2 * c.npml

/-- The local `start = npml + cavity_buffer` of `Cavity2D.solve` and
`Cavity2D.get_operators`. -/
def Cavity2D.dev_start (c : Cavity2D) : ℕ := c.npml + c.cavity_buffer

/-- The local `end = start + device_length` of `Cavity2D.solve` and
`Cavity2D.get_operators`. -/
def Cavity2D.dev_end (c : Cavity2D) : ℕ := c.dev_start + c.device_length

/-- The permittivity grid built inside `Cavity2D.get_operators`: ones, then
the four border bands `[:, :start]`, `[:start, :]`, `[:, end:]`, `[end:, :]`
are overwritten with `buffer_permittivity` (no device block is written).
The branches test the writes in reverse order (last write wins; all four
writes store the same constant). -/
def Cavity2D.operatorPerms (c : Cavity2D) : ℕ → ℕ → ℚ :=
  fun i j =>
    if c.dev_end ≤ i then c.buffer_permittivity
    else if c.dev_end ≤ j then c.buffer_permittivity
    else if i < c.dev_start then c.buffer_permittivity
    else if j < c.dev_start then c.buffer_permittivity
    else 1

/-- Embedding of `Cavity2D.get_operators(omega)`: same operator assembly as
`get_A_ops_2d`, over the fixed internal grid `Cavity2D.operatorPerms` of shape
`total_length x total_length`, with the instance polarization mode. -/
def Cavity2D.get_operators (derivs : Sim2DConfig → DerivOps) (c : Cavity2D)
    (omega : ℚ) : (ℕ → ℕ → Cx) × (ℕ → ℕ → ℚ) :=
  let total := c.total_length
  let perms := c.operatorPerms
  let cfg : Sim2DConfig := ⟨total, total, c.npml, c.mode, omega, c.dl, c.L0⟩
  let d := derivs cfg
  let M := total * total
  let vector_eps_z : ℕ → ℚ := fun k => EPSILON0 * c.L0 * flatten_eps total perms k
  let T_eps_z := spdiags0 vector_eps_z M
  let curl_curl : ℕ → ℕ → Cx :=
    fun i j => matmul M d.Dxf d.Dxb i j + matmul M d.Dyf d.Dyb i j
  let other : ℕ → ℕ → ℚ := fun i j => omega ^ 2 * MU0 * c.L0 * T_eps_z i j
  (curl_curl, other)

/-- Configuration fields of `SimulationData` (the open-boundary dataset
runner): device grid side, PML cells, buffer cells, source position (in
buffer-strip coordinates, as stored in `self.source_pos`), frequency, grid
spacing and length scale. -/
structure SimulationData where
  grid_size : ℕ
  npml : ℕ
  npml_buffer : ℕ
  source_pos : ℕ × ℕ
  omega : ℚ
  dl : ℚ
  L0 : ℚ

/-- The attribute `total_grid_size = grid_size + 2*npml + 2*npml_buffer` set
in `SimulationData.__init__`. -/
def SimulationData.total_grid_size (sd : SimulationData) : ℕ :=
  sd.grid_size + 2 * sd.npml + 2 * sd.npml_buffer

/-- The local `start = npml + npml_buffer` of `SimulationData.solve` and
`SimulationData.get_proximity_matrix`. -/
def SimulationData.solve_start (sd : SimulationData) : ℕ :=
  sd.npml + sd.npml_buffer

/-- The local `end = start + grid_size` of `SimulationData.solve` and
`SimulationData.get_proximity_matrix`. -/
def SimulationData.solve_end (sd : SimulationData) : ℕ :=
  sd.solve_start + sd.grid_size

/-- Modelled from the spec: `np.random.randint(lo, hi)` draws uniformly from
the half-open range `[lo, hi)` (numpy's documented high-exclusive contract);
the draw is represented by an arbitrary stream value `r` reduced into the
range by modulo. -/
def randint (lo hi r : ℕ) : ℕ := lo + r % (hi - lo)

/-- The default source position drawn in `SimulationData.__init__` when
`source_pos is None`: `pos_x = randint(0, npml_buffer - 1)`,
`pos_y = randint(0, grid_size)`. -/
def default_source_pos (npml_buffer grid_size r1 r2 : ℕ) : ℕ × ℕ :=
  (randint 0 (npml_buffer - 1) r1, randint 0 grid_size r2)

/-- The `source_pos` attribute set by `SimulationData.__init__`: the explicit
argument when supplied, otherwise the random default. -/
def init_source_pos (npml_buffer grid_size : ℕ) (source_pos : Option (ℕ × ℕ))
    (r1 r2 : ℕ) : ℕ × ℕ :=
  match source_pos with
  | none => default_source_pos npml_buffer grid_size r1 r2
  | some p => p

/-- The squared distance `(x - x0)^2 + (y - y0)^2` with
`x0, y0 = self.source_pos + start`, computed at the full-grid cell with row
`y` and column `x`, exactly as in the comprehensions of
`SimulationData.get_proximity_matrix`. -/
def prox_sq (sd : SimulationData) (y x : ℕ) : ℤ :=
  ((x : ℤ) - ((sd.source_pos.1 : ℤ) + (sd.solve_start : ℤ))) ^ 2 +
    ((y : ℤ) - ((sd.source_pos.2 : ℤ) + (sd.solve_start : ℤ))) ^ 2

/-- Embedding of `SimulationData.get_proximity_matrix(mode)`.  The source
builds the full `total_grid_size` square matrix `[y][x]` and slices
`[start:end, start:end]`; here the sliced entry `(a, b)` directly reads the
full-grid cell `(start + a, start + b)`.  A mode outside the four known names
falls off the end of the Python function, returning `None`. -/
noncomputable def SimulationData.get_proximity_matrix (sd : SimulationData)
    (mode : String) : Option (ℕ → ℕ → ℝ) :=
  if mode = "linear" then
    some (fun (a b : ℕ) =>
      Real.sqrt ((prox_sq sd (sd.solve_start + a) (sd.solve_start + b) : ℤ) : ℝ))
  else if mode = "squared" then
    some (fun (a b : ℕ) =>
      ((prox_sq sd (sd.solve_start + a) (sd.solve_start + b) : ℤ) : ℝ))
  else if mode = "inv_linear" then
    some (fun (a b : ℕ) =>
      1 / Real.sqrt (1 + ((prox_sq sd (sd.solve_start + a) (sd.solve_start + b) : ℤ) : ℝ)))
  else if mode = "inv_squared" then
    some (fun (a b : ℕ) =>
      1 / (1 + ((prox_sq sd (sd.solve_start + a) (sd.solve_start + b) : ℤ) : ℝ)))
  else none

/-- The permittivity grid built inside `Cavity2D.solve`: ones, then the bands
`[:, :start]` and `[:start, :]` are set to `buffer_permittivity`, the device
window `[start:end, start:end]` receives `epsilons`, and the bands `[:, end:]`
and `[end:, :]` are set to `buffer_permittivity`.  Branches test the writes in
reverse order (last write wins). -/
def Cavity2D.solvePerms (c : Cavity2D) (epsilons : ℕ → ℕ → ℚ) : ℕ → ℕ → ℚ :=
  fun i j =>
    if c.dev_end ≤ i then c.buffer_permittivity
    else if c.dev_end ≤ j then c.buffer_permittivity
    else if c.dev_start ≤ i ∧ c.dev_start ≤ j then
      epsilons (i - c.dev_start) (j - c.dev_start)
    else if i < c.dev_start then c.buffer_permittivity
    else c.buffer_permittivity

/-- Embedding of `Cavity2D.solve(epsilons, omega, src_x, src_y)`.  The
external `angler` field solve is abstracted as the parameter `solve_fields`
(it is consumed once, with the polarization mode); `clip0 = clip1 = None`
in the source, so the returned arrays are not clipped.  The method reads
`self` only — it assigns no instance attribute — so the embedding is a pure
function of the configuration.  An unsupported mode raises
`ValueError("Polarization must be Ez or Hz!")`. -/
def cavitySolve (solve_fields : String → (ℕ → ℕ → Cx) × (ℕ → ℕ → Cx) × (ℕ → ℕ → Cx))
    (c : Cavity2D) (epsilons : ℕ → ℕ → ℚ) (omega : ℚ)
    (src_x0 src_y0 : Option ℕ) :
    Except String ((ℕ → ℕ → ℚ) × ℕ × ℕ × (ℕ → ℕ → Cx) × (ℕ → ℕ → Cx) × (ℕ → ℕ → Cx)) :=
  let _ := omega
  let perms := c.solvePerms epsilons
  let src_x := src_x0.getD (c.total_length / 2)
  let src_y := src_y0.getD (c.total_length / 2)
  if c.mode = "Ez" then
    let f := solve_fields c.mode
    .ok (perms, src_x, src_y, f.1, f.2.1, f.2.2)
  else if c.mode = "Hz" then
    let f := solve_fields c.mode
    .ok (perms, src_x, src_y, f.1, f.2.1, f.2.2)
  else
    .error "Polarization must be Ez or Hz!"

/-- Embedding of `perm_ellipse(s)` with the four random draws
`x0, y0 = randint(16, s - 16, 2)` and `rx, ry = randint(5, 16, 2)` made
explicit parameters.  `np.meshgrid(arange(s), arange(s))` puts `x = column`
and `y = row`; `ellipse` is the boolean mask
`((x - x0)/rx)^2 + ((y - y0)/ry)^2 <= 1`, and the source indexes with
`ellipse < 1.0`, which compares the boolean (False = 0.0, True = 1.0) against
the float 1.0. -/
def perm_ellipse (s x0 y0 rx ry : ℕ) : ℕ → ℕ → ℚ :=
  fun i j =>
    let _ := s
    if (if (((j : ℚ) - (x0 : ℚ)) / (rx : ℚ)) ^ 2 +
          (((i : ℚ) - (y0 : ℚ)) / (ry : ℚ)) ^ 2 ≤ 1
        then (1 : ℚ) else 0) < 1
    then eps_si else 1

/-!
Model of the h5py container used by `create_dataset`.  h5py is an external
package, not under `src/`.  Modelled from the spec and from h5py's documented
contracts: `require_group` opens a group, creating it when absent;
`require_dataset` opens an existing dataset when its shape and dtype match,
raises on a mismatch, and creates the dataset otherwise — never touching
stored data of a matching dataset.  Files and groups are association lists
keyed by name, looked up first-match. -/

/-- Schema of one stored dataset: shape and dtype name. -/
structure DSpec where
  shape : List ℕ
  dtype : String
deriving DecidableEq

/-- One stored dataset: its schema and its stored cells (flattened). -/
structure DSet where
  spec : DSpec
  data : List ℚ
deriving DecidableEq

/-- A group maps dataset names to datasets. -/
abbrev HGroup : Type := List (String × DSet)

/-- A file maps group names to groups. -/
abbrev HFile : Type := List (String × HGroup)

/-- First-match association-list lookup by name. -/
def alookup {α : Type} : List (String × α) → String → Option α
  | [], _ => none
  | (k, v) :: rest, n => if k = n then some v else alookup rest n

/-- Modelled from the spec: `grp.require_dataset(name, shape, dtype)` —
reuse an existing dataset when its schema matches, error on a schema
mismatch, create (with zero-filled data) when absent. -/
def require_dataset (g : HGroup) (name : String) (shape : List ℕ)
    (dtype : String) : Except String (HGroup × DSet) :=
  match alookup g name with
  | some d =>
    if d.spec = ⟨shape, dtype⟩ then .ok (g, d)
    else .error "incompatible existing dataset"
  | none =>
    let d : DSet := ⟨⟨shape, dtype⟩, List.replicate shape.prod 0⟩
    .ok (g ++ [(name, d)], d)

/-- Sequence of `require_dataset` calls, one per column, threading the
group state and collecting the opened datasets in order. -/
def require_datasets : HGroup → List (String × List ℕ × String) →
    Except String (HGroup × List DSet)
  | g, [] => .ok (g, [])
  | g, (n, shape, dt) :: rest =>
    match require_dataset g n shape dt with
    | .error e => .error e
    | .ok (g1, d) =>
      match require_datasets g1 rest with
      | .error e => .error e
      | .ok (g2, ds) => .ok (g2, d :: ds)

/-- The eight columns requested by `create_dataset(f, N, name, s)`, in source
order: `epsilons` and `proximities` as float64, the six field columns as
complex128, all shaped `(N, s, s)`. -/
def dataset_columns (N s : ℕ) : List (String × List ℕ × String) :=
  [("epsilons", [N, s, s], "float64"),
   ("proximities", [N, s, s], "float64"),
   ("Hx", [N, s, s], "complex128"),
   ("Hy", [N, s, s], "complex128"),
   ("Ez", [N, s, s], "complex128"),
   ("Hx_vac", [N, s, s], "complex128"),
   ("Hy_vac", [N, s, s], "complex128"),
   ("Ez_vac", [N, s, s], "complex128")]

/-- Modelled from the spec: `f.require_group(name)` — return the existing
group, or append an empty one. -/
def require_group (f : HFile) (name : String) : HFile × HGroup :=
  match alookup f name with
  | some g => (f, g)
  | none => (f ++ [(name, [])], [])

/-- Write back the (mutated-in-place in h5py) group under its name. -/
def setGroup (f : HFile) (name : String) (g : HGroup) : HFile :=
  f.map (fun p => if p.1 = name then (p.1, g) else p)

/-- Embedding of `create_dataset(f, N, name, s)`: require the group, require
the eight datasets in order, and return the updated file together with the
opened datasets (the dict the source returns, in column order). -/
def create_dataset (f : HFile) (N : ℕ) (name : String) (s : ℕ) :
    Except String (HFile × List DSet) :=
  let fg := require_group f name
  match require_datasets fg.2 (dataset_columns N s) with
  | .error e => .error e
  | .ok p => .ok (setGroup fg.1 name p.1, p.2)

/-!  Concrete instances used by counterexample and witness theorems. -/

/-- A concrete derivative-operator constructor (all-zero stencils), used only
to instantiate the abstracted angler parameter at concrete inputs. -/
def trivDerivs : Sim2DConfig → DerivOps :=
  fun _ => ⟨fun _ _ => (0, 0), fun _ _ => (0, 0), fun _ _ => (0, 0), fun _ _ => (0, 0)⟩

/-- A concrete field-solver stub for instantiating `cavitySolve`. -/
def trivFields : String → (ℕ → ℕ → Cx) × (ℕ → ℕ → Cx) × (ℕ → ℕ → Cx) :=
  fun _ => (fun _ _ => (0, 0), fun _ _ => (0, 0), fun _ _ => (0, 0))

/-- The all-ones (vacuum) permittivity grid. -/
def epsOne : ℕ → ℕ → ℚ := fun _ _ => 1

/-- A concrete `SimulationData` with a 3x3 device, default PML and buffer,
and the source at buffer coordinates (0, 0). -/
def sd3 : SimulationData := ⟨3, 16, 16, (0, 0), OMEGA_1550 * 2, 1 / 20, 1 / 10 ^ 6⟩

/-- A concrete `Cavity2D` whose polarization mode is the unsupported "TM". -/
def cavTM : Cavity2D := ⟨"TM", 32, 0, 4, -(10 ^ 20 : ℚ), 1 / 20, 1 / 10 ^ 6⟩

/-- A concrete `Cavity2D` whose polarization mode is the unsupported "TE". -/
def cavTE : Cavity2D := ⟨"TE", 32, 0, 4, -(10 ^ 20 : ℚ), 1 / 20, 1 / 10 ^ 6⟩

/-- A concrete `Cavity2D` in Ez mode with a 1-cell device and 1-cell buffer
(total grid 3x3). -/
def cavEz : Cavity2D := ⟨"Ez", 1, 0, 1, -(10 ^ 20 : ℚ), 1 / 20, 1 / 10 ^ 6⟩

/-- The stored float64 dataset produced for shape `(1, 1, 1)`. -/
def dsF : DSet := ⟨⟨[1, 1, 1], "float64"⟩, [0]⟩

/-- The stored complex128 dataset produced for shape `(1, 1, 1)`. -/
def dsC : DSet := ⟨⟨[1, 1, 1], "complex128"⟩, [0]⟩

/-- The file state after `create_dataset` on an empty file with
`N = 1`, `name = "test"`, `s = 1`. -/
def fileAfter : HFile :=
  [("test",
    [("epsilons", dsF), ("proximities", dsF), ("Hx", dsC), ("Hy", dsC),
     ("Ez", dsC), ("Hx_vac", dsC), ("Hy_vac", dsC), ("Ez_vac", dsC)])]

/-- The dataset list returned by that `create_dataset` call. -/
def dsAfter : List DSet := [dsF, dsF, dsC, dsC, dsC, dsC, dsC, dsC]

/-!  Theorems. -/

/-- Helper: the start offsets cancel in the clipped proximity distance, so the
device-window entry `(a, b)` sees the squared distance to the source in
device-window coordinates. -/
theorem prox_sq_shift (sd : SimulationData) (a b : ℕ) :
    prox_sq sd (sd.solve_start + a) (sd.solve_start + b) =
      ((b : ℤ) - (sd.source_pos.1 : ℤ)) ^ 2 + ((a : ℤ) - (sd.source_pos.2 : ℤ)) ^ 2 := by
  unfold prox_sq
  push_cast
  ring

/-- C2: the `curl_curl` operator returned by `get_A_ops_2d` is the same
matrix for any two permittivity grids of the same shape under an identical
configuration (shape, npml, omega, dl, L0): it is built from the simulation
derivative operators only, which are a function of the configuration and not
of the permittivity values. -/
theorem C2_curl_curl_permittivity_indep
    (derivs : Sim2DConfig → DerivOps) (rows cols npml : ℕ) (omega dl L0 : ℚ)
    (eps1 eps2 : ℕ → ℕ → ℚ) :
    (get_A_ops_2d derivs rows cols eps1 npml omega dl L0).1 =
      (get_A_ops_2d derivs rows cols eps2 npml omega dl L0).1 := rfl

/-- C3: for every configuration (each thickness may be zero) the padded grid
side is `device + 2*pml + 2*buffer`, the device window starts at
`pml + buffer` and ends at `start + device`, and `end - start = device`, for
both `SimulationData` and `Cavity2D`. -/
theorem C3_grid_geometry :
    (∀ sd : SimulationData,
      sd.total_grid_size = sd.grid_size + 2 * sd.npml + 2 * sd.npml_buffer ∧
      sd.solve_start = sd.npml + sd.npml_buffer ∧
      sd.solve_end = sd.solve_start + sd.grid_size ∧
      sd.solve_end - sd.solve_start = sd.grid_size) ∧
    (∀ c : Cavity2D,
      c.total_length = c.device_length + 2 * c.cavity_buffer + 2 * c.npml ∧
      c.dev_start = c.npml + c.cavity_buffer ∧
      c.dev_end = c.dev_start + c.device_length ∧
      c.dev_end - c.dev_start = c.device_length) := by
  constructor
  · intro sd
    refine ⟨rfl, rfl, rfl, ?_⟩
    simp [SimulationData.solve_end, SimulationData.solve_start]
  · intro c
    refine ⟨rfl, rfl, rfl, ?_⟩
    simp [Cavity2D.dev_end, Cavity2D.dev_start]

/-- C4: each proximity transform returns the stated function of the squared
distance `d2 = (x - x0)^2 + (y - y0)^2`, clipped to the device window (the
window offsets cancel, leaving device-window coordinates); in particular for
the 3x3 device with source at (0, 0): `squared[1][1] = 2`,
`inv_squared[0][0] = 1`, `linear[2][2] = sqrt 8`. -/
theorem C4_proximity_matrix :
    (∀ sd : SimulationData,
      sd.get_proximity_matrix "linear" =
        some (fun (a b : ℕ) => Real.sqrt
          (((((b : ℤ) - (sd.source_pos.1 : ℤ)) ^ 2 +
             ((a : ℤ) - (sd.source_pos.2 : ℤ)) ^ 2 : ℤ) : ℝ))) ∧
      sd.get_proximity_matrix "squared" =
        some (fun (a b : ℕ) =>
          (((((b : ℤ) - (sd.source_pos.1 : ℤ)) ^ 2 +
             ((a : ℤ) - (sd.source_pos.2 : ℤ)) ^ 2 : ℤ) : ℝ))) ∧
      sd.get_proximity_matrix "inv_linear" =
        some (fun (a b : ℕ) => 1 / Real.sqrt
          (1 + ((((b : ℤ) - (sd.source_pos.1 : ℤ)) ^ 2 +
                 ((a : ℤ) - (sd.source_pos.2 : ℤ)) ^ 2 : ℤ) : ℝ))) ∧
      sd.get_proximity_matrix "inv_squared" =
        some (fun (a b : ℕ) => 1 /
          (1 + ((((b : ℤ) - (sd.source_pos.1 : ℤ)) ^ 2 +
                 ((a : ℤ) - (sd.source_pos.2 : ℤ)) ^ 2 : ℤ) : ℝ)))) ∧
    (sd3.get_proximity_matrix "squared").getD (fun _ _ => 0) 1 1 = 2 ∧
    (sd3.get_proximity_matrix "inv_squared").getD (fun _ _ => 0) 0 0 = 1 ∧
    (sd3.get_proximity_matrix "linear").getD (fun _ _ => 0) 2 2 = Real.sqrt 8 := by
  have hgen : ∀ sd : SimulationData,
      sd.get_proximity_matrix "linear" =
        some (fun (a b : ℕ) => Real.sqrt
          (((((b : ℤ) - (sd.source_pos.1 : ℤ)) ^ 2 +
             ((a : ℤ) - (sd.source_pos.2 : ℤ)) ^ 2 : ℤ) : ℝ))) ∧
      sd.get_proximity_matrix "squared" =
        some (fun (a b : ℕ) =>
          (((((b : ℤ) - (sd.source_pos.1 : ℤ)) ^ 2 +
             ((a : ℤ) - (sd.source_pos.2 : ℤ)) ^ 2 : ℤ) : ℝ))) ∧
      sd.get_proximity_matrix "inv_linear" =
        some (fun (a b : ℕ) => 1 / Real.sqrt
          (1 + ((((b : ℤ) - (sd.source_pos.1 : ℤ)) ^ 2 +
                 ((a : ℤ) - (sd.source_pos.2 : ℤ)) ^ 2 : ℤ) : ℝ))) ∧
      sd.get_proximity_matrix "inv_squared" =
        some (fun (a b : ℕ) => 1 /
          (1 + ((((b : ℤ) - (sd.source_pos.1 : ℤ)) ^ 2 +
                 ((a : ℤ) - (sd.source_pos.2 : ℤ)) ^ 2 : ℤ) : ℝ))) := by
    intro sd
    refine ⟨?_, ?_, ?_, ?_⟩
    · unfold SimulationData.get_proximity_matrix
      rw [if_pos rfl]
      congr 1
      funext a b
      rw [prox_sq_shift]
    · unfold SimulationData.get_proximity_matrix
      rw [if_neg (by decide), if_pos rfl]
      congr 1
      funext a b
      rw [prox_sq_shift]
    · unfold SimulationData.get_proximity_matrix
      rw [if_neg (by decide), if_neg (by decide), if_pos rfl]
      congr 1
      funext a b
      rw [prox_sq_shift]
    · unfold SimulationData.get_proximity_matrix
      rw [if_neg (by decide), if_neg (by decide), if_neg (by decide), if_pos rfl]
      congr 1
      funext a b
      rw [prox_sq_shift]
  refine ⟨hgen, ?_, ?_, ?_⟩
  · rw [(hgen sd3).2.1]
    simp [sd3]
    norm_num
  · rw [(hgen sd3).2.2.2]
    simp [sd3]
  · rw [(hgen sd3).1]
    simp [sd3]
    norm_num

/-- C1 counterexample: at a concrete 1x1 vacuum grid with the default
frequency the material operator actually returned by `get_A_ops_2d` has
diagonal entry `omega^2 * MU0 * L0 * (EPSILON0 * L0 * eps)`, which differs
from the claimed `EPSILON0 * L0 * eps`. -/
theorem C1_returned_material_entry_cex :
    (get_A_ops_2d trivDerivs 1 1 epsOne 0 OMEGA_1550 (1 / 20) (1 / 10 ^ 6)).2 0 0 ≠
      EPSILON0 * (1 / 10 ^ 6) * epsOne 0 0 := by
  norm_num [get_A_ops_2d, spdiags0, flatten_eps, epsOne, EPSILON0, MU0, OMEGA_1550]

/-- C1 (amended): the material operator returned by `get_A_ops_2d` (and by
`Cavity2D.get_operators`) is exactly diagonal, with the diagonal entry for
each flattened cell `k < rows*cols` equal to
`omega^2 * MU0 * L0 * (EPSILON0 * L0 * permittivity[cell])` — that is,
`omega^2 * mu0 * L0` times the claimed `epsilon0 * L0 * permittivity[cell]` —
in the row-major flattening order also used for the `curl_curl` system size,
and row-major flatten-then-reshape is the identity on the grid. -/
theorem C1_material_diagonal_amended
    (derivs : Sim2DConfig → DerivOps) (rows cols npml : ℕ) (omega dl L0 : ℚ)
    (eps : ℕ → ℕ → ℚ) :
    (∀ i j : ℕ, i ≠ j →
      (get_A_ops_2d derivs rows cols eps npml omega dl L0).2 i j = 0) ∧
    (∀ k : ℕ, k < rows * cols →
      (get_A_ops_2d derivs rows cols eps npml omega dl L0).2 k k =
        omega ^ 2 * MU0 * L0 * (EPSILON0 * L0 * eps (k / cols) (k % cols))) ∧
    (∀ k : ℕ, rows * cols ≤ k →
      (get_A_ops_2d derivs rows cols eps npml omega dl L0).2 k k = 0) ∧
    (∀ i j : ℕ, j < cols → unflatten cols (flatten_eps cols eps) i j = eps i j) ∧
    (∀ (c : Cavity2D) (om : ℚ) (i j : ℕ), i ≠ j →
      (Cavity2D.get_operators derivs c om).2 i j = 0) ∧
    (∀ (c : Cavity2D) (om : ℚ) (k : ℕ), k < c.total_length * c.total_length →
      (Cavity2D.get_operators derivs c om).2 k k =
        om ^ 2 * MU0 * c.L0 *
          (EPSILON0 * c.L0 *
            c.operatorPerms (k / c.total_length) (k % c.total_length))) := by
  refine ⟨?_, ?_, ?_, ?_, ?_, ?_⟩
  · intro i j hij
    simp [get_A_ops_2d, spdiags0, hij]
  · intro k hk
    simp [get_A_ops_2d, spdiags0, flatten_eps, hk]
  · intro k hk
    simp [get_A_ops_2d, spdiags0, flatten_eps]
    intro h
    omega
  · intro i j hj
    have hc : 0 < cols := lt_of_le_of_lt (Nat.zero_le _) hj
    simp only [unflatten, flatten_eps]
    have h1 : i * cols + j = j + cols * i := by ring
    rw [h1, Nat.add_mul_div_left _ _ hc, Nat.add_mul_mod_self_left,
      Nat.div_eq_of_lt hj, Nat.mod_eq_of_lt hj, Nat.zero_add]
  · intro c om i j hij
    simp [Cavity2D.get_operators, spdiags0, hij]
  · intro c om k hk
    simp [Cavity2D.get_operators, spdiags0, flatten_eps, hk]

/-- C1 witness: the amended theorem evaluated at a concrete 2x2 grid,
flattened index 3, grid cell (1,1), and a concrete cavity. -/
theorem C1_material_diagonal_witness :
    (get_A_ops_2d trivDerivs 2 2 epsOne 0 OMEGA_1550 (1 / 20) (1 / 10 ^ 6)).2 0 1 = 0 ∧
    (get_A_ops_2d trivDerivs 2 2 epsOne 0 OMEGA_1550 (1 / 20) (1 / 10 ^ 6)).2 3 3 =
      OMEGA_1550 ^ 2 * MU0 * (1 / 10 ^ 6) *
        (EPSILON0 * (1 / 10 ^ 6) * epsOne (3 / 2) (3 % 2)) ∧
    unflatten 2 (flatten_eps 2 epsOne) 1 1 = epsOne 1 1 ∧
    (Cavity2D.get_operators trivDerivs cavEz OMEGA_1550).2 4 4 =
      OMEGA_1550 ^ 2 * MU0 * cavEz.L0 *
        (EPSILON0 * cavEz.L0 *
          cavEz.operatorPerms (4 / cavEz.total_length) (4 % cavEz.total_length)) :=
  ⟨(C1_material_diagonal_amended trivDerivs 2 2 0 OMEGA_1550 (1 / 20) (1 / 10 ^ 6)
      epsOne).1 0 1 (by decide),
   (C1_material_diagonal_amended trivDerivs 2 2 0 OMEGA_1550 (1 / 20) (1 / 10 ^ 6)
      epsOne).2.1 3 (by decide),
   (C1_material_diagonal_amended trivDerivs 2 2 0 OMEGA_1550 (1 / 20) (1 / 10 ^ 6)
      epsOne).2.2.2.1 1 1 (by decide),
   (C1_material_diagonal_amended trivDerivs 2 2 0 OMEGA_1550 (1 / 20) (1 / 10 ^ 6)
      epsOne).2.2.2.2.2 cavEz OMEGA_1550 4
      (by norm_num [Cavity2D.total_length, cavEz])⟩

/-- C10: `Cavity2D.get_operators` builds its material term over the fixed
internal grid that is 1 inside the device window and `buffer_permittivity`
everywhere outside it (it takes no caller permittivity at all), the returned
material matrix is diagonal, and its diagonal entry at a device-window cell
`(i, j)` (flattened row-major) is `omega^2 * MU0 * L0 * (EPSILON0 * L0)`. -/
theorem C10_cavity_operators
    (derivs : Sim2DConfig → DerivOps) (c : Cavity2D) (omega : ℚ) :
    (∀ i j : ℕ, i ≠ j → (Cavity2D.get_operators derivs c omega).2 i j = 0) ∧
    (∀ i j : ℕ, i < c.total_length → j < c.total_length →
      c.operatorPerms i j =
        if c.dev_start ≤ i ∧ i < c.dev_end ∧ c.dev_start ≤ j ∧ j < c.dev_end
        then 1 else c.buffer_permittivity) ∧
    (∀ i j : ℕ, c.dev_start ≤ i → i < c.dev_end → c.dev_start ≤ j → j < c.dev_end →
      (Cavity2D.get_operators derivs c omega).2
          (i * c.total_length + j) (i * c.total_length + j) =
        omega ^ 2 * MU0 * c.L0 * (EPSILON0 * c.L0)) := by
  refine ⟨?_, ?_, ?_⟩
  · intro i j hij
    simp [Cavity2D.get_operators, spdiags0, hij]
  · intro i j hi hj
    unfold Cavity2D.operatorPerms
    split_ifs <;> first | rfl | omega
  · intro i j hi1 hi2 hj1 hj2
    have hje : c.dev_end ≤ c.total_length := by
      simp only [Cavity2D.dev_end, Cavity2D.dev_start, Cavity2D.total_length]
      omega
    have hjT : j < c.total_length := lt_of_lt_of_le hj2 hje
    have hiT : i < c.total_length := lt_of_lt_of_le hi2 hje
    have hT : 0 < c.total_length := lt_of_le_of_lt (Nat.zero_le _) hjT
    have hrw : i * c.total_length + j = j + c.total_length * i := by ring
    have hdiv : (i * c.total_length + j) / c.total_length = i := by
      rw [hrw, Nat.add_mul_div_left _ _ hT, Nat.div_eq_of_lt hjT, Nat.zero_add]
    have hmod : (i * c.total_length + j) % c.total_length = j := by
      rw [hrw, Nat.add_mul_mod_self_left, Nat.mod_eq_of_lt hjT]
    have hlt : i * c.total_length + j < c.total_length * c.total_length := by
      have h1 : i * c.total_length + j < (i + 1) * c.total_length := by
        rw [Nat.succ_mul]
        omega
      have h2 : (i + 1) * c.total_length ≤ c.total_length * c.total_length :=
        Nat.mul_le_mul_right _ hiT
      omega
    have hperm : c.operatorPerms i j = 1 := by
      unfold Cavity2D.operatorPerms
      rw [if_neg (by omega), if_neg (by omega), if_neg (by omega), if_neg (by omega)]
    simp [Cavity2D.get_operators, spdiags0, flatten_eps, hlt, hdiv, hmod, hperm]

/-- C10 witness: the characterization evaluated at the concrete cavity
`cavEz` (device 1, buffer 1, total grid 3x3) at window cell (1, 1). -/
theorem C10_cavity_operators_witness :
    (Cavity2D.get_operators trivDerivs cavEz OMEGA_1550).2 0 1 = 0 ∧
    cavEz.operatorPerms 1 1 =
      (if cavEz.dev_start ≤ 1 ∧ 1 < cavEz.dev_end ∧ cavEz.dev_start ≤ 1 ∧ 1 < cavEz.dev_end
       then 1 else cavEz.buffer_permittivity) ∧
    (Cavity2D.get_operators trivDerivs cavEz OMEGA_1550).2
        (1 * cavEz.total_length + 1) (1 * cavEz.total_length + 1) =
      OMEGA_1550 ^ 2 * MU0 * cavEz.L0 * (EPSILON0 * cavEz.L0) :=
  ⟨(C10_cavity_operators trivDerivs cavEz OMEGA_1550).1 0 1 (by decide),
   (C10_cavity_operators trivDerivs cavEz OMEGA_1550).2.1 1 1
     (by norm_num [Cavity2D.total_length, cavEz])
     (by norm_num [Cavity2D.total_length, cavEz]),
   (C10_cavity_operators trivDerivs cavEz OMEGA_1550).2.2 1 1
     (by norm_num [Cavity2D.dev_start, cavEz])
     (by norm_num [Cavity2D.dev_end, Cavity2D.dev_start, cavEz])
     (by norm_num [Cavity2D.dev_start, cavEz])
     (by norm_num [Cavity2D.dev_end, Cavity2D.dev_start, cavEz])⟩

/-- C5 counterexample: for the unsupported mode "TM", `Cavity2D.solve` raises
`ValueError("Polarization must be Ez or Hz!")`, and that message does not
contain the invalid mode string — it names the supported modes instead. -/
theorem C5_polarization_message_cex :
    cavitySolve trivFields cavTM epsOne OMEGA_1550 none none =
      .error "Polarization must be Ez or Hz!" ∧
    ¬ List.IsInfix "TM".data "Polarization must be Ez or Hz!".data := by
  refine ⟨?_, by decide⟩
  unfold cavitySolve
  rw [if_neg (by decide), if_neg (by decide)]

/-- C5 (amended): for every polarization mode other than "Ez" and "Hz",
`Cavity2D.solve` fails fast with the error message
"Polarization must be Ez or Hz!" (which names the supported modes, not the
invalid one); the method reads the configuration only and mutates no state,
which the embedding reflects by being a pure function of it. -/
theorem C5_polarization_error_amended
    (solve_fields : String → (ℕ → ℕ → Cx) × (ℕ → ℕ → Cx) × (ℕ → ℕ → Cx))
    (c : Cavity2D) (eps : ℕ → ℕ → ℚ) (omega : ℚ) (sx sy : Option ℕ)
    (h1 : c.mode ≠ "Ez") (h2 : c.mode ≠ "Hz") :
    cavitySolve solve_fields c eps omega sx sy =
      .error "Polarization must be Ez or Hz!" := by
  unfold cavitySolve
  rw [if_neg h1, if_neg h2]

/-- C5 witness: the amended theorem applied at the concrete invalid mode
"TE". -/
theorem C5_polarization_error_witness :
    cavitySolve trivFields cavTE epsOne OMEGA_1550 none none =
      .error "Polarization must be Ez or Hz!" :=
  C5_polarization_error_amended trivFields cavTE epsOne OMEGA_1550 none none
    (by decide) (by decide)

/-- C6 counterexample: for the unknown transform name "gaussian",
`get_proximity_matrix` does not raise — it falls off the end of the function
and returns `None`. -/
theorem C6_unknown_transform_cex :
    sd3.get_proximity_matrix "gaussian" = none := by
  unfold SimulationData.get_proximity_matrix
  rw [if_neg (by decide), if_neg (by decide), if_neg (by decide), if_neg (by decide)]

/-- C6 (amended): for every transform name outside {"linear", "squared",
"inv_linear", "inv_squared"}, `get_proximity_matrix` returns `None` (no
array) instead of raising a configuration error. -/
theorem C6_unknown_transform_amended (sd : SimulationData) (mode : String)
    (h1 : mode ≠ "linear") (h2 : mode ≠ "squared") (h3 : mode ≠ "inv_linear")
    (h4 : mode ≠ "inv_squared") :
    sd.get_proximity_matrix mode = none := by
  unfold SimulationData.get_proximity_matrix
  rw [if_neg h1, if_neg h2, if_neg h3, if_neg h4]

/-- C6 witness: the amended theorem applied at the concrete unknown name
"cubic". -/
theorem C6_unknown_transform_witness : sd3.get_proximity_matrix "cubic" = none :=
  C6_unknown_transform_amended sd3 "cubic" (by decide) (by decide) (by decide)
    (by decide)

/-- C7 counterexample: with the default buffer thickness 16, the claimed
range `[0, npml_buffer - 1]` would make `pos_x = 15` attainable, but
`np.random.randint(0, npml_buffer - 1)` is high-exclusive: no draw yields 15. -/
theorem C7_source_range_cex :
    ¬ ∃ r1 r2 : ℕ, (init_source_pos 16 32 none r1 r2).1 = 15 := by
  rintro ⟨r1, r2, h⟩
  simp [init_source_pos, default_source_pos, randint] at h
  omega

/-- C7 (amended): the default source position is drawn from
`[0, npml_buffer - 1) x [0, grid_size)` — high ends exclusive, so `pos_x` is
at most `npml_buffer - 2` — every value in that range is attainable, and an
explicitly supplied position is used exactly as given. -/
theorem C7_source_pos_amended (nb gs r1 r2 : ℕ) (hnb : 2 ≤ nb) (hgs : 1 ≤ gs) :
    ((init_source_pos nb gs none r1 r2).1 < nb - 1 ∧
      (init_source_pos nb gs none r1 r2).2 < gs) ∧
    (∀ x y : ℕ, x < nb - 1 → y < gs → init_source_pos nb gs none x y = (x, y)) ∧
    (∀ p : ℕ × ℕ, init_source_pos nb gs (some p) r1 r2 = p) := by
  refine ⟨⟨?_, ?_⟩, ?_, ?_⟩
  · simp only [init_source_pos, default_source_pos, randint, Nat.sub_zero,
      Nat.zero_add]
    exact Nat.mod_lt _ (by omega)
  · simp only [init_source_pos, default_source_pos, randint, Nat.sub_zero,
      Nat.zero_add]
    exact Nat.mod_lt _ (by omega)
  · intro x y hx hy
    simp only [init_source_pos, default_source_pos, randint, Nat.sub_zero,
      Nat.zero_add]
    rw [Nat.mod_eq_of_lt hx, Nat.mod_eq_of_lt hy]
  · intro p
    rfl

/-- C7 witness: the amended theorem at the default configuration
(buffer 16, device 32) and a concrete pair of draws. -/
theorem C7_source_pos_witness :
    (init_source_pos 16 32 none 7 40).1 < 16 - 1 ∧
      (init_source_pos 16 32 none 7 40).2 < 32 :=
  (C7_source_pos_amended 16 32 7 40 (by decide) (by decide)).1

/-- C8: `perm_ellipse` evaluated at the concrete valid draws
`x0 = y0 = 20`, `rx = ry = 5` on a 40x40 grid leaves the cell (20, 20) at the
very center of the ellipse at 1.0 and sets the far-outside cell (0, 0) to
`eps_si`: the mask `ellipse < 1.0` inverts the intended ellipse, so the
constant lands on the background, contradicting the claim (and the sibling
`perm_rectangle`, which fills the inclusion itself). -/
theorem C8_perm_ellipse_inverted :
    perm_ellipse 40 20 20 5 5 20 20 = 1 ∧
    perm_ellipse 40 20 20 5 5 0 0 = eps_si ∧
    eps_si ≠ 1 := by
  refine ⟨?_, ?_, by norm_num [eps_si]⟩
  · simp only [perm_ellipse]
    split_ifs with h1 h2 h3 <;> norm_num at *
  · simp only [perm_ellipse]
    split_ifs with h1 h2 h3 <;> norm_num at *

/-- Helper: a successful lookup is unaffected by appending entries. -/
theorem alookup_append_of_some {α : Type} {l : List (String × α)} {n : String}
    {w : α} (h : alookup l n = some w) (t : List (String × α)) :
    alookup (l ++ t) n = some w := by
  induction l with
  | nil => simp [alookup] at h
  | cons p rest ih =>
    obtain ⟨k, v⟩ := p
    simp only [alookup, List.cons_append] at h ⊢
    by_cases hk : k = n
    · rw [if_pos hk] at h ⊢; exact h
    · rw [if_neg hk] at h ⊢; exact ih h

/-- Helper: looking up after appending one entry to a list without the key. -/
theorem alookup_append_single_none {α : Type} {l : List (String × α)}
    {n : String} (h : alookup l n = none) (n1 : String) (v : α) :
    alookup (l ++ [(n1, v)]) n = if n1 = n then some v else none := by
  induction l with
  | nil => simp [alookup]
  | cons p rest ih =>
    obtain ⟨k, w⟩ := p
    simp only [alookup, List.cons_append] at h ⊢
    by_cases hk : k = n
    · rw [if_pos hk] at h; exact Option.noConfusion h
    · rw [if_neg hk] at h ⊢; exact ih h

/-- Helper: after a successful `require_dataset`, the dataset is present
under its name with the requested schema. -/
theorem require_dataset_ok {g g2 : HGroup} {name : String} {shape : List ℕ}
    {dtype : String} {d : DSet}
    (h : require_dataset g name shape dtype = .ok (g2, d)) :
    alookup g2 name = some d ∧ d.spec = ⟨shape, dtype⟩ := by
  unfold require_dataset at h
  split at h
  · rename_i d0 heq
    split at h
    · rename_i hs
      cases h
      exact ⟨heq, hs⟩
    · exact Except.noConfusion h
  · rename_i heq
    simp only [Except.ok.injEq, Prod.mk.injEq] at h
    obtain ⟨hg, hd⟩ := h
    subst hg
    subst hd
    refine ⟨?_, rfl⟩
    rw [alookup_append_single_none heq]
    simp

/-- Helper: a successful `require_dataset` preserves every present lookup. -/
theorem require_dataset_preserves {g g2 : HGroup} {name : String}
    {shape : List ℕ} {dtype : String} {d : DSet} {n : String} {w : DSet}
    (h : require_dataset g name shape dtype = .ok (g2, d))
    (hl : alookup g n = some w) : alookup g2 n = some w := by
  unfold require_dataset at h
  split at h
  · split at h
    · cases h
      exact hl
    · exact Except.noConfusion h
  · simp only [Except.ok.injEq, Prod.mk.injEq] at h
    obtain ⟨hg, hd⟩ := h
    subst hg
    exact alookup_append_of_some hl _

/-- Helper: a successful `require_datasets` run preserves present lookups. -/
theorem require_datasets_preserves (cols : List (String × List ℕ × String)) :
    ∀ {g g2 : HGroup} {ds : List DSet} {n : String} {w : DSet},
      require_datasets g cols = .ok (g2, ds) → alookup g n = some w →
      alookup g2 n = some w := by
  induction cols with
  | nil =>
    intro g g2 ds n w h hl
    unfold require_datasets at h
    cases h
    exact hl
  | cons col rest ih =>
    intro g g2 ds n w h hl
    obtain ⟨nm, shape, dt⟩ := col
    unfold require_datasets at h
    split at h
    · exact Except.noConfusion h
    · rename_i g1 d heq1
      split at h
      · exact Except.noConfusion h
      · rename_i g2t dst heq2
        cases h
        exact ih heq2 (require_dataset_preserves heq1 hl)

/-- Helper: a successful `require_datasets` run is idempotent — rerunning it
on the resulting group changes nothing and returns the same datasets. -/
theorem require_datasets_idem (cols : List (String × List ℕ × String)) :
    ∀ {g g2 : HGroup} {ds : List DSet},
      require_datasets g cols = .ok (g2, ds) →
      require_datasets g2 cols = .ok (g2, ds) := by
  induction cols with
  | nil =>
    intro g g2 ds h
    unfold require_datasets at h
    cases h
    rfl
  | cons col rest ih =>
    intro g g2 ds h
    obtain ⟨nm, shape, dt⟩ := col
    unfold require_datasets at h
    split at h
    · exact Except.noConfusion h
    · rename_i g1 d heq1
      split at h
      · exact Except.noConfusion h
      · rename_i g2t dst heq2
        cases h
        obtain ⟨hmem, hspec⟩ := require_dataset_ok heq1
        have hmem2 : alookup g2 nm = some d :=
          require_datasets_preserves rest heq2 hmem
        have hstep : require_dataset g2 nm shape dt = .ok (g2, d) := by
          unfold require_dataset
          rw [hmem2]
          simp [hspec]
        unfold require_datasets
        rw [hstep]
        simp only []
        rw [ih heq2]

/-- Helper: updating a present group and looking it up returns the update. -/
theorem alookup_setGroup {f : HFile} {n : String} {w : HGroup}
    (h : alookup f n = some w) (g : HGroup) :
    alookup (setGroup f n g) n = some g := by
  induction f with
  | nil => simp [alookup] at h
  | cons p rest ih =>
    obtain ⟨k, v⟩ := p
    simp only [setGroup, List.map_cons]
    by_cases hk : k = n
    · subst hk
      rw [if_pos (show (k, v).1 = k from rfl)]
      simp [alookup]
    · rw [if_neg (show ¬(k, v).1 = n from hk)]
      have h2 : alookup rest n = some w := by
        simp only [alookup] at h
        rwa [if_neg hk] at h
      simp only [alookup]
      rw [if_neg hk]
      exact ih h2

/-- Helper: writing the same group twice is the same as writing it once. -/
theorem setGroup_idem (f : HFile) (n : String) (g : HGroup) :
    setGroup (setGroup f n g) n g = setGroup f n g := by
  induction f with
  | nil => rfl
  | cons p rest ih =>
    obtain ⟨k, v⟩ := p
    by_cases hk : k = n <;> simp [setGroup, hk] <;>
      simpa [setGroup] using ih

/-- Helper: after `require_group`, the group is present in the file under the
requested name. -/
theorem require_group_mem (f : HFile) (name : String) :
    alookup (require_group f name).1 name = some (require_group f name).2 := by
  unfold require_group
  split
  · rename_i g heq
    exact heq
  · rename_i heq
    rw [alookup_append_single_none heq]
    simp

/-- C9: `create_dataset` is idempotent — if a call returns a file state and
dataset list, calling it again with the same batch name and shape parameters
on that state does not raise, reuses the existing columns, returns the same
datasets, and leaves the stored file (hence all stored data) unchanged. -/
theorem C9_create_dataset_idempotent (f : HFile) (N : ℕ) (name : String)
    (s : ℕ) (f2 : HFile) (ds : List DSet)
    (h : create_dataset f N name s = .ok (f2, ds)) :
    create_dataset f2 N name s = .ok (f2, ds) := by
  simp only [create_dataset] at h ⊢
  split at h
  · exact Except.noConfusion h
  · rename_i p heq
    obtain ⟨g2, dsl⟩ := p
    cases h
    set F := setGroup (require_group f name).1 name g2 with hF
    have hmem1 := require_group_mem f name
    have hf2 : alookup F name = some g2 := by
      rw [hF]
      exact alookup_setGroup hmem1 g2
    have hrg2 : require_group F name = (F, g2) := by
      unfold require_group
      rw [hf2]
    have hidem := require_datasets_idem _ heq
    simp only [hrg2, hidem]
    rw [hF, setGroup_idem]

/-- C9 witness: creating the dataset on an empty file and re-creating it on
the resulting file returns the identical file state and datasets. -/
theorem C9_create_dataset_witness :
    create_dataset fileAfter 1 "test" 1 = .ok (fileAfter, dsAfter) :=
  C9_create_dataset_idempotent [] 1 "test" 1 fileAfter dsAfter (by rfl)
